import Mathlib

/-!
Shallow embedding of the matching/synchronization core of the
`haw-modul-anerkennung` repository (directory `matching-api/matching/`),
together with proofs about the claims of its specification.

The embedding follows the Python source:
  * `matching/chromadb.py`   — `sync_from_database`, `ensure_synced`
  * `matching/database.py`   — `get_units_checksum`
  * `matching/assistant.py`  — `find_matching_units`, `compare_modules`,
                               `compare_multiple` (and its inner
                               `compare_single_unit`), the prompt texts and
                               the genai response schemas.

Modelling conventions:
  * Python dicts that act as records become structures; dicts keyed by id
    (`units`, `modules`) become association lists `List (String × _)`.
  * The ChromaDB collection is a list of `(id, document, metadata)` entries;
    every mutation issued against it is recorded in an explicit operation
    log (`StoreOp`) so that frame conditions ("no writes were issued") are
    statable.  Embedding vectors are irrelevant to every property proved
    here and are not stored; the embedding provider is an oracle whose only
    observable behaviour is success or an exception.
  * Network calls (embedding provider, generative provider) are oracles
    passed as function arguments returning `Except String _`; an `error`
    models a raised exception.
  * Python floats are modelled as `ℚ`; `round(x, 3)` is modelled as exact
    round-half-to-even on `ℚ`.
  * Wall-clock timing fields are not modelled (no claim depends on them).
-/

/-- `str(x)` applied to a dict value that is either a string or `None`
(Python renders `None` as the string `"None"` inside `str`/f-strings). -/
def pyStrOpt : Option String → String
  | some s => s
  | none => "None"

/-! ## Catalog snapshot (`fetch_units_from_db` output shape, database.py) -/

/-- One entry of the `units` dict produced by `fetch_units_from_db`
(database.py).  Field nullability follows the SQLAlchemy models
(models.py): `title` is non-null, `semester`/`sws`/`workload`/`lehrsprache`
may be `None`; `learning_outcomes_text` and `content` are defaulted to
`""` in the fetch (`u.lernziele or ""`). -/
structure UnitRec where
  title : String
  module_id : String
  semester : Option String
  sws : Option String
  workload : Option String
  lehrsprache : Option String
  learning_outcomes_text : String
  content : String
  verantwortliche : List String
deriving Repr, DecidableEq, Inhabited

/-- One entry of the `modules` dict produced by `fetch_units_from_db`. -/
structure ModuleRec where
  title : String
  credits : Option String
  sws : Option String
  semester : Option String
  gesamtziele : String
  pruefungsleistung : String
deriving Repr, DecidableEq, Inhabited

/-- The snapshot returned by `fetch_units_from_db`:
`{"units": {...}, "modules": {...}}`, dicts modelled as association lists
in insertion order. -/
structure FetchResult where
  units : List (String × UnitRec)
  modules : List (String × ModuleRec)
deriving Repr, DecidableEq, Inhabited

/-! ## Semantic index store (the ChromaDB collection) -/

/-- The metadata record built for each unit in `sync_from_database`
(chromadb.py, the `metadata = {...}` literal).  All values are strings
there (`str(...)` conversions). -/
structure Metadata where
  unit_id : String
  unit_title : String
  module_id : String
  module_title : String
  semester : String
  sws : String
  credits : String
  workload : String
  lehrsprache : String
  pruefungsleistung : String
  studiengang : String
  verantwortliche : String
deriving Repr, DecidableEq, Inhabited

/-- One entry of the ChromaDB collection: id, document text, metadata.
The embedding vector is opaque to every property proved here. -/
structure StoreEntry where
  id : String
  doc : String
  meta : Metadata
deriving Repr, DecidableEq, Inhabited

/-- The ChromaDB collection contents. -/
abbrev Store := List StoreEntry

/-- A mutation issued against the collection, for frame-condition
reasoning: `collection.delete(ids=...)` or `collection.add(ids=...)`. -/
inductive StoreOp where
  | delete (ids : List String)
  | add (ids : List String)
deriving Repr, DecidableEq

/-- Result of one `sync_from_database` run: the collection contents
afterwards, the log of mutations issued, and the returned count (or the
raised exception). -/
structure SyncOutcome where
  store : Store
  ops : List StoreOp
  result : Except String Nat
deriving Repr

/-! ## Sync engine (`sync_from_database`, chromadb.py lines 87–194) -/

/-- The searchable document string built for one unit in
`sync_from_database` (the `content_parts` block).  `module?` is
`modules.get(module_id, {})`: a missing module behaves like an empty dict,
whose `.get(key, "")` is `""` (falsy). -/
def buildDocument (unit : UnitRec) (module? : Option ModuleRec) : String :=
  let moduleTitle := match module? with
    | some m => m.title
    | none => ""
  let parts :=
    ["Unit: " ++ unit.title, "Modul: " ++ moduleTitle]
    ++ (if unit.learning_outcomes_text ≠ "" then
          ["Lernziele:\n" ++ unit.learning_outcomes_text] else [])
    ++ (if unit.content ≠ "" then ["Inhalte:\n" ++ unit.content] else [])
    ++ (match module? with
        | some m => if m.gesamtziele ≠ "" then ["Modulziele:\n" ++ m.gesamtziele] else []
        | none => [])
  String.intercalate "\n\n" parts

/-- The metadata record built for one unit in `sync_from_database`
(the `metadata = {...}` literal).  `str` of an optional string renders
`None` as `"None"`; a missing module yields `str("") = ""` for its
fields. -/
def buildMetadata (unit_id : String) (unit : UnitRec) (module? : Option ModuleRec) : Metadata :=
  { unit_id := unit_id
    unit_title := unit.title
    module_id := unit.module_id
    module_title := match module? with
      | some m => m.title
      | none => ""
    semester := pyStrOpt unit.semester
    sws := pyStrOpt unit.sws
    credits := match module? with
      | some m => pyStrOpt m.credits
      | none => ""
    workload := pyStrOpt unit.workload
    lehrsprache := pyStrOpt unit.lehrsprache
    pruefungsleistung := (match module? with
      | some m => m.pruefungsleistung
      | none => "").take 200
    studiengang := "BAPuMa"
    verantwortliche := String.intercalate ", " unit.verantwortliche }

/-- `modules.get(module_id, {})` for one snapshot unit. -/
def lookupModule (modules : List (String × ModuleRec)) (mid : String) : Option ModuleRec :=
  (modules.find? (fun p => p.1 == mid)).map (·.2)

/-- The store entry built for one snapshot unit. -/
def mkStoreEntry (modules : List (String × ModuleRec)) (p : String × UnitRec) : StoreEntry :=
  let module? := lookupModule modules p.2.module_id
  { id := p.1
    doc := buildDocument p.2 module?
    meta := buildMetadata p.1 p.2 module? }

/-- `existing_ids = set(existing["ids"])` in `sync_from_database`. -/
def existingIdsOf (store : Store) : List String :=
  (store.map (·.id)).dedup

/-- `new_ids = set(units.keys())` in `sync_from_database`. -/
def newIdsOf (data : FetchResult) : List String :=
  (data.units.map (·.1)).dedup

/-- `to_add = new_ids - existing_ids` in `sync_from_database`. -/
def toAddOf (data : FetchResult) (store : Store) : List String :=
  (newIdsOf data).filter (fun i => decide (i ∉ existingIdsOf store))

/-- `to_delete = existing_ids - new_ids` in `sync_from_database`. -/
def toDeleteOf (data : FetchResult) (store : Store) : List String :=
  (existingIdsOf store).filter (fun i => decide (i ∉ newIdsOf data))

/-- The collection after the `if to_delete: collection.delete(...)` step. -/
def store1Of (data : FetchResult) (store : Store) : Store :=
  if (toDeleteOf data store).isEmpty then store
  else store.filter (fun e => decide (e.id ∉ toDeleteOf data store))

/-- The ops issued by the `if to_delete: collection.delete(...)` step. -/
def ops1Of (data : FetchResult) (store : Store) : List StoreOp :=
  if (toDeleteOf data store).isEmpty then []
  else [StoreOp.delete (toDeleteOf data store)]

/-- The collection after the force-refresh
`if existing["ids"]: collection.delete(ids=existing["ids"])` step
(a no-op unless `force_refresh`). -/
def store2Of (data : FetchResult) (store : Store) (force_refresh : Bool) : Store :=
  if force_refresh && !(store.map (·.id)).isEmpty then
    (store1Of data store).filter (fun e => decide (e.id ∉ store.map (·.id)))
  else store1Of data store

/-- The ops issued up to and including the force-refresh delete step. -/
def ops2Of (data : FetchResult) (store : Store) (force_refresh : Bool) : List StoreOp :=
  if force_refresh && !(store.map (·.id)).isEmpty then
    ops1Of data store ++ [StoreOp.delete (store.map (·.id))]
  else ops1Of data store

/-- `units_to_process` in `sync_from_database`: the whole snapshot when
forced, otherwise only `to_add` (iterated in snapshot order). -/
def unitsToProcessOf (data : FetchResult) (store : Store) (force_refresh : Bool) :
    List (String × UnitRec) :=
  if force_refresh then data.units
  else data.units.filter (fun u => decide (u.1 ∈ toAddOf data store))

/-- The `documents`/`metadatas`/`ids` triple built in the processing loop,
as full store entries. -/
def entriesOf (data : FetchResult) (store : Store) (force_refresh : Bool) : Store :=
  (unitsToProcessOf data store force_refresh).map (mkStoreEntry data.modules)

/-- `sync_from_database(force_refresh)` (chromadb.py lines 87–194).
`embed` is the embedding provider invoked inside `collection.add`; its
exception aborts the add (no entries are stored) and propagates.  The
snapshot `data` stands for the `fetch_units_from_db()` result. -/
def sync_from_database (embed : List String → Except String Unit)
    (data : FetchResult) (store : Store) (force_refresh : Bool) : SyncOutcome :=
  if data.units.isEmpty then
    { store := store, ops := [], result := Except.ok 0 }
  else if (toAddOf data store).isEmpty && (toDeleteOf data store).isEmpty
      && !force_refresh then
    { store := store, ops := [], result := Except.ok (existingIdsOf store).length }
  else if (unitsToProcessOf data store force_refresh).isEmpty then
    { store := store2Of data store force_refresh
      ops := ops2Of data store force_refresh
      result := Except.ok (store2Of data store force_refresh).length }
  else
    match embed ((entriesOf data store force_refresh).map (·.doc)) with
    | Except.error e =>
      { store := store2Of data store force_refresh
        ops := ops2Of data store force_refresh
        result := Except.error e }
    | Except.ok _ =>
      { store := store2Of data store force_refresh ++ entriesOf data store force_refresh
        ops := ops2Of data store force_refresh
          ++ [StoreOp.add ((entriesOf data store force_refresh).map (·.id))]
        result := Except.ok (store2Of data store force_refresh
          ++ entriesOf data store force_refresh).length }

/-! ## Checksum gate (`get_units_checksum`, `ensure_synced`) -/

/-- `get_units_checksum` (database.py lines 24–38):
`SELECT max(updated_at) FROM units`, `NULL` (= `none`) when the table is
empty.  Timestamps are modelled as integers; the argument is the list of
`updated_at` column values. -/
def get_units_checksum (updated_times : List Int) : Option Int :=
  updated_times.max?

/-- The process-wide mutable state read and written by `ensure_synced`:
the module-level `_last_checksum` plus the collection contents. -/
structure SyncSession where
  lastChecksum : Option Int
  store : Store
deriving Repr

/-- Result of one `ensure_synced` run. -/
structure EnsureOutcome where
  session : SyncSession
  ops : List StoreOp
  result : Except String Bool
deriving Repr

/-- `ensure_synced` (chromadb.py lines 197–218).  `updated_times` feeds
`get_units_checksum()`; `data` is the snapshot that the triggered
`sync_from_database()` will fetch (a separate query, deliberately a
separate argument).  When the sync raises, the exception propagates and
`_last_checksum` is left unassigned; the partially mutated store is kept. -/
def ensure_synced (embed : List String → Except String Unit)
    (updated_times : List Int) (data : FetchResult) (st : SyncSession) : EnsureOutcome :=
  if st.lastChecksum = none ∨ get_units_checksum updated_times ≠ st.lastChecksum then
    match (sync_from_database embed data st.store false).result with
    | Except.ok _ =>
      { session := { lastChecksum := get_units_checksum updated_times
                     store := (sync_from_database embed data st.store false).store }
        ops := (sync_from_database embed data st.store false).ops
        result := Except.ok true }
    | Except.error e =>
      { session := { lastChecksum := st.lastChecksum
                     store := (sync_from_database embed data st.store false).store }
        ops := (sync_from_database embed data st.store false).ops
        result := Except.error e }
  else
    { session := st, ops := [], result := Except.ok false }

/-! ## Rounding (`round(x, 3)` on the similarity score) -/

/-- Round-half-to-even on `ℚ` (Python `round` semantics on its argument,
idealized over exact rationals). -/
def roundHalfEven (q : ℚ) : ℤ :=
  if q - ⌊q⌋ < 1 / 2 then ⌊q⌋
  else if 1 / 2 < q - ⌊q⌋ then ⌊q⌋ + 1
  else if Even ⌊q⌋ then ⌊q⌋ else ⌊q⌋ + 1

/-- Python `round(q, 3)` over `ℚ`. -/
def pyRound3 (q : ℚ) : ℚ :=
  ((roundHalfEven (q * 1000) : ℤ) : ℚ) / 1000

/-! ## Retrieval (`find_matching_units`, assistant.py lines 83–131) -/

/-- One reply of `collection.query` for the single query text:
the `documents[0]`, `metadatas[0]`, `distances[0]` parallel lists. -/
structure QueryReply where
  documents : List String
  metadatas : List Metadata
  distances : List ℚ
deriving Repr

/-- One entry of the `matches` list built by `find_matching_units`. -/
structure MatchRow where
  rank : Nat
  unit_id : String
  unit_title : String
  module_id : String
  module_title : String
  semester : String
  sws : String
  credits : String
  workload : String
  verantwortliche : String
  similarity : ℚ
  doc : String
deriving Repr, DecidableEq

/-- `find_matching_units` (assistant.py lines 83–131), from the point the
store has replied: `for i, (doc, meta, dist) in enumerate(zip(...))`,
`similarity = 1 - dist`, `round(similarity, 3)`, `rank = i + 1`. -/
def find_matching_units (reply : QueryReply) : List MatchRow :=
  ((reply.documents.zip (reply.metadatas.zip reply.distances)).enum).map
    (fun p =>
      { rank := p.1 + 1
        unit_id := p.2.2.1.unit_id
        unit_title := p.2.2.1.unit_title
        module_id := p.2.2.1.module_id
        module_title := p.2.2.1.module_title
        semester := p.2.2.1.semester
        sws := p.2.2.1.sws
        credits := p.2.2.1.credits
        workload := p.2.2.1.workload
        verantwortliche := p.2.2.1.verantwortliche
        similarity := pyRound3 (1 - p.2.2.2)
        doc := p.2.1 })

/-! ## JSON values and genai response schemas (assistant.py lines 16–72) -/

/-- A parsed JSON value (the result of `json.loads` on the provider
response text). -/
inductive JVal where
  | null
  | bool (b : Bool)
  | num (q : ℚ)
  | str (s : String)
  | arr (xs : List JVal)
  | obj (fields : List (String × JVal))

/-- `genai.types.Schema` as used in assistant.py: only the constructs the
source uses (type, enum on strings, nullable on numbers, items,
properties, required); `description` strings carry no semantics. -/
inductive GSchema where
  | string (enum : List String)
  | integer
  | number (nullable : Bool)
  | array (items : GSchema)
  | object (properties : List (String × GSchema)) (required : List String)

/-- The fields of `genai.types.GenerateContentConfig` that the comparison
paths set (assistant.py lines 272–277 and 383–388). -/
structure GenContentConfig where
  response_mime_type : String
  response_schema : GSchema
  thinking_budget : Int
  temperature : ℚ

/-- `COMPARISON_SCHEMA.items.properties["lernziele"]` (assistant.py 24–35). -/
def lernzieleSchema : GSchema :=
  GSchema.array (GSchema.object
    [("ziel", GSchema.string []), ("status", GSchema.string []), ("note", GSchema.string [])]
    ["ziel", "status", "note"])

/-- `COMPARISON_SCHEMA.items.properties["credits"]` (assistant.py 36–44). -/
def creditsSchema : GSchema :=
  GSchema.object
    [("extern", GSchema.number true), ("intern", GSchema.number true),
     ("bewertung", GSchema.string [])]
    ["bewertung"]

/-- `COMPARISON_SCHEMA.items.properties["defizite"]` (assistant.py 48–51). -/
def defiziteSchema : GSchema := GSchema.array (GSchema.string [])

/-- `COMPARISON_SCHEMA` (assistant.py lines 16–56). -/
def COMPARISON_SCHEMA : GSchema :=
  GSchema.array (GSchema.object
    [("unit_id", GSchema.string []),
     ("lernziele_match", GSchema.integer),
     ("empfehlung", GSchema.string ["vollständig", "teilweise", "keine"]),
     ("lernziele", lernzieleSchema),
     ("credits", creditsSchema),
     ("niveau", GSchema.string []),
     ("pruefung", GSchema.string []),
     ("workload", GSchema.string []),
     ("defizite", defiziteSchema),
     ("fazit", GSchema.string [])]
    ["unit_id", "lernziele_match", "empfehlung", "lernziele", "credits",
     "niveau", "pruefung", "workload", "defizite", "fazit"])

/-- `SINGLE_COMPARISON_SCHEMA` (assistant.py lines 58–72); its `lernziele`,
`credits` and `defizite` sub-schemas are shared with `COMPARISON_SCHEMA`
exactly as in the source. -/
def SINGLE_COMPARISON_SCHEMA : GSchema :=
  GSchema.object
    [("lernziele_match", GSchema.integer),
     ("empfehlung", GSchema.string ["vollständig", "teilweise", "keine"]),
     ("lernziele", lernzieleSchema),
     ("credits", creditsSchema),
     ("niveau", GSchema.string []),
     ("pruefung", GSchema.string []),
     ("workload", GSchema.string []),
     ("defizite", defiziteSchema),
     ("fazit", GSchema.string [])]
    ["lernziele_match", "empfehlung", "lernziele", "credits", "niveau",
     "pruefung", "workload", "defizite", "fazit"]

mutual
/-- Machine validation of a JSON value against a schema, as guaranteed by
the provider for schema-constrained generation: required keys present,
every present key declared, values well-typed, enums respected. -/
def conformsTo : JVal → GSchema → Bool
  | JVal.str s, GSchema.string enum => enum.isEmpty || enum.contains s
  | _, GSchema.string _ => false
  | JVal.num q, GSchema.integer => q.den == 1
  | _, GSchema.integer => false
  | JVal.num _, GSchema.number _ => true
  | JVal.null, GSchema.number nullable => nullable
  | _, GSchema.number _ => false
  | JVal.arr xs, GSchema.array items => xs.all (fun x => conformsTo x items)
  | _, GSchema.array _ => false
  | JVal.obj fs, GSchema.object props required =>
      required.all (fun k => fs.any (fun kv => kv.1 == k)) &&
      fs.all (fun kv => fieldConform kv props)
  | _, GSchema.object _ _ => false
termination_by _v s => sizeOf s

/-- One object field matches some declared property and conforms to it. -/
def fieldConform : String × JVal → List (String × GSchema) → Bool
  | _, [] => false
  | kv, (k, s) :: rest => if kv.1 == k then conformsTo kv.2 s else fieldConform kv rest
termination_by _kv props => sizeOf props
end

/-- Python `dict.get(k)` on a parsed JSON object. -/
def jsonGet (fs : List (String × JVal)) (k : String) : Option JVal :=
  (fs.find? (fun kv => kv.1 == k)).map (·.2)

/-- Python `dict.get(k, d)` on a parsed JSON object. -/
def jsonGetD (fs : List (String × JVal)) (k : String) (d : JVal) : JVal :=
  (jsonGet fs k).getD d

/-- Python `d[k] = v` on a parsed JSON object (replace in place, else
append). -/
def objSet (fs : List (String × JVal)) (k : String) (v : JVal) : List (String × JVal) :=
  if fs.any (fun kv => kv.1 == k) then
    fs.map (fun kv => if kv.1 == k then (k, v) else kv)
  else fs ++ [(k, v)]

/-! ## Prompt construction (assistant.py lines 210–269, 338–381, 440–468) -/

/-- The parsed external module (`parse_external_module` output /
`external_module` request payload).  All keys are present as
`parse_external_module` emits them; JSON `null` is `none`.
`learning_goals` is modelled as a list of strings (the shape the parse
schema prescribes); absent/null/empty all behave as the empty list, which
is falsy like in the source. -/
structure ExternalModule where
  title : Option String
  credits : Option ℚ
  workload : Option String
  level : Option String
  assessment : Option String
  institution : Option String
  learning_goals : List String
  raw_text : Option String
deriving Repr, DecidableEq, Inhabited

/-- Python truthiness of an optional JSON number (`None` and `0` falsy). -/
def pyTruthyQ : Option ℚ → Bool
  | none => false
  | some q => decide (q ≠ 0)

/-- Python truthiness of an optional string (`None` and `""` falsy). -/
def pyTruthyS : Option String → Bool
  | none => false
  | some s => decide (s ≠ "")

/-- Rendering of a JSON number in an f-string; integral values render like
Python ints.  (Non-integral floats are rendered as exact rationals here —
a presentation detail no proved property depends on.) -/
def qToPyStr (q : ℚ) : String :=
  if q.den = 1 then toString q.num else toString q

/-- `_format_module_for_comparison` (assistant.py lines 440–468). -/
def format_module_for_comparison (module : ExternalModule) (is_external : Bool) : String :=
  let pfx := if is_external then "Externes Modul" else "Internes Modul"
  let parts :=
    ["**" ++ pfx ++ ":** " ++ pyStrOpt module.title]
    ++ (if pyTruthyQ module.credits then
          ["**Credits:** " ++ qToPyStr (module.credits.getD 0)] else [])
    ++ (if pyTruthyS module.workload then
          ["**Workload:** " ++ module.workload.getD ""] else [])
    ++ (if pyTruthyS module.level then
          ["**Niveau:** " ++ module.level.getD ""] else [])
    ++ (if pyTruthyS module.assessment then
          ["**Prüfung:** " ++ module.assessment.getD ""] else [])
    ++ (if pyTruthyS module.institution then
          ["**Institution:** " ++ module.institution.getD ""] else [])
    ++ (if module.learning_goals.isEmpty then [] else
          ["**Lernziele:**\n" ++
            String.intercalate "\n" (module.learning_goals.map (fun g => "- " ++ g))])
    ++ (if pyTruthyS module.raw_text then
          ["**Beschreibung:**\n" ++ (module.raw_text.getD "").take 1500] else [])
  String.intercalate "\n" parts

/-- The `internal_text` f-string, identical in `compare_modules`
(lines 234–242) and `compare_single_unit` (lines 344–352). -/
def internalTextOf (meta : Metadata) (doc : String) : String :=
  "**Unit:** " ++ meta.unit_title ++
  "\n**Modul:** " ++ meta.module_title ++
  "\n**Credits:** " ++ meta.credits ++
  "\n**SWS:** " ++ meta.sws ++
  "\n**Workload:** " ++ meta.workload ++
  "\n**Prüfung:** " ++ meta.pruefungsleistung ++
  "\n\n**Inhalt:**\n" ++ doc

/-- The schema example block shared verbatim by both comparison prompts,
from the line after the opening brace to the closing brace. -/
def comparisonSchemaBlockTail : String :=
  "\n  \"lernziele_match\": 0-100,\n  \"empfehlung\": \"vollständig\"|\"teilweise\"|\"keine\",\n  \"lernziele\": [\n    \x7b\"ziel\": \"Unit-Ziel\", \"status\": \"✓|~|✗\", \"note\": \"1 Satz warum\"\x7d\n  ],\n  \"credits\": \x7b\"extern\": Zahl|null, \"intern\": Zahl|null, \"bewertung\": \"OK/Problem + 1 Satz\"\x7d,\n  \"niveau\": \"Bachelor/Master Bewertung, 1 Satz\",\n  \"pruefung\": \"Prüfungsform-Vergleich, 1 Satz\",\n  \"workload\": \"Workload-Einordnung, 1 Satz\",\n  \"defizite\": [\"konkrete Lücke 1\", \"…\"],\n  \"fazit\": \"2-3 Sätze, klare Begründung + Empfehlung\"\n\x7d"

/-- The schema example block of the `compare_modules` prompt (lines 244–257). -/
def singleSchemaBlock : String := "\x7b" ++ comparisonSchemaBlockTail

/-- The schema example block of the `compare_single_unit` prompt
(lines 354–368): same as the single one plus the leading `unit_id` line. -/
def batchSchemaBlock (uid : String) : String :=
  "\x7b\n  \"unit_id\": \"" ++ uid ++ "\"," ++ comparisonSchemaBlockTail

/-- The criteria lines shared verbatim by both prompts (credits rule,
relevance rule, deficiency cap). -/
def sharedKriterienTail : String :=
  "- Credits: Extern ≥ Intern OK, bis ~10% Diff tolerierbar\n- Niveau/Prüfung/Workload nur erwähnen wenn relevant\n- Max 3 Defizite, sachlich, keine Floskeln."

/-- The `Kriterien:` block of the `compare_modules` prompt (lines 259–263):
threshold ≥80% for a full recommendation, ≥50% for partial. -/
def compareModulesKriterien : String :=
  "Kriterien:\n- Lernziele: ≥80% → vollständig, ≥50% → teilweise, <50% → keine\n"
  ++ sharedKriterienTail

/-- The `Kriterien:` block of the `compare_single_unit` prompt
(lines 370–375): threshold ≥85% plus a core-goals requirement and an extra
borderline (75–84%) rule, ≥50% for partial. -/
def compareSingleUnitKriterien : String :=
  "Kriterien:\n- Lernziele: ≥85% UND alle Kernlernziele → vollständig, ≥50% → teilweise, <50% → keine\n- GRENZFÄLLE (75-84%): Wenn Zweifel oder Kernlernziele fehlen → IMMER \"teilweise\"\n"
  ++ sharedKriterienTail

/-- Assembly common to both comparison prompts (header, schema block,
criteria, external module, internal unit). -/
def mkComparisonPrompt (schemaBlock kriterien external_text internal_text : String) : String :=
  "Prüfe, ob externes Modul auf interne Unit anerkennbar ist. Liefere JSON nach Schema:\n"
  ++ schemaBlock ++ "\n\n" ++ kriterien
  ++ "\n\n## Externes Modul\n" ++ external_text
  ++ "\n\n## Interne Unit\n" ++ internal_text

/-- The full prompt of `compare_modules` (lines 244–269). -/
def compareModulesPrompt (external_module : ExternalModule) (entry : StoreEntry) : String :=
  mkComparisonPrompt singleSchemaBlock compareModulesKriterien
    (format_module_for_comparison external_module true)
    (internalTextOf entry.meta entry.doc)

/-- The `GenerateContentConfig` of `compare_modules` (lines 272–277). -/
def compareModulesConfig : GenContentConfig :=
  { response_mime_type := "application/json"
    response_schema := SINGLE_COMPARISON_SCHEMA
    thinking_budget := 1000
    temperature := 0 }

/-- The `GenerateContentConfig` of `compare_single_unit` (lines 383–388). -/
def compareSingleUnitConfig : GenContentConfig :=
  { response_mime_type := "application/json"
    response_schema := SINGLE_COMPARISON_SCHEMA
    thinking_budget := 1000
    temperature := 0 }

/-! ## Comparison orchestrator (assistant.py lines 210–438) -/

/-- The three shapes of dict returned by `compare_modules`: the not-found
error dict (line 227), the success dict (lines 288–295), and the
caught-exception dict (lines 298–302). -/
inductive CompareOneResult where
  | notFound (error : String)
  | ok (recommendation : JVal) (reasoning : JVal) (learning_goals_match : Option JVal)
      (internal_unit_id : String) (internal_unit_title : String)
      (internal_module_title : String)
  | failed (error : String) (recommendation : String) (reasoning : String)

/-- `compare_modules` (assistant.py lines 210–302).  The oracle `llm`
models `generate_content` followed by reading `parts[0].text` and
`json.loads`: `.error` is any exception on that path (caught by the
`except` at line 297).  A parsed value that is not a JSON object makes
`.get` raise, which the same `except` catches. -/
def compare_modules (llm : String → GenContentConfig → Except String JVal)
    (store : Store) (external_module : ExternalModule)
    (internal_unit_id : String) : CompareOneResult :=
  match store.filter (fun e => e.id == internal_unit_id) with
  | [] => CompareOneResult.notFound ("Unit " ++ internal_unit_id ++ " not found")
  | e :: _ =>
    match llm (compareModulesPrompt external_module e) compareModulesConfig with
    | Except.error err => CompareOneResult.failed ("LLM call failed: " ++ err) "offen" ""
    | Except.ok parsed =>
      match parsed with
      | JVal.obj fs =>
        CompareOneResult.ok (jsonGetD fs "empfehlung" (JVal.str "offen"))
          (jsonGetD fs "begründung" (JVal.str ""))
          (jsonGet fs "lernziele_match")
          internal_unit_id e.meta.unit_title e.meta.module_title
      | _ => CompareOneResult.failed "LLM call failed: response JSON is not an object" "offen" ""

/-- One element of the `units_data` list of `compare_multiple`
(lines 320–331). -/
structure UnitData where
  unit_id : String
  doc : String
  meta : Metadata
deriving Repr, DecidableEq

/-- The `units_data` resolution loop of `compare_multiple`
(lines 320–331): ids absent from the collection are silently skipped. -/
def resolveUnits (store : Store) (unit_ids : List String) : List UnitData :=
  unit_ids.filterMap (fun uid =>
    match store.filter (fun e => e.id == uid) with
    | [] => none
    | e :: _ => some { unit_id := uid, doc := e.doc, meta := e.meta })

/-- The full prompt of `compare_single_unit` (lines 354–381). -/
def compareSingleUnitPrompt (external_module : ExternalModule) (u : UnitData) : String :=
  mkComparisonPrompt (batchSchemaBlock u.unit_id) compareSingleUnitKriterien
    (format_module_for_comparison external_module true)
    (internalTextOf u.meta u.doc)

/-- `compare_single_unit` (assistant.py lines 338–410), the task body run
once per candidate.  It has no exception handler of its own: the `.error`
of the oracle (provider failure, empty parts, `json.loads` failure) and
the item-assignment failure on a non-object value both propagate to the
caller as the task's exception. -/
def compare_single_unit (llm : String → GenContentConfig → Except String JVal)
    (external_module : ExternalModule) (u : UnitData) : Except String JVal :=
  match llm (compareSingleUnitPrompt external_module u) compareSingleUnitConfig with
  | Except.error e => Except.error e
  | Except.ok parsed =>
    match parsed with
    | JVal.obj fs0 =>
      let fs1 := objSet fs0 "unit_id" (JVal.str u.unit_id)
      let fs2 := objSet fs1 "unit_title" (JVal.str u.meta.unit_title)
      let fs3 := objSet fs2 "module_title" (JVal.str u.meta.module_title)
      let fs4 := objSet fs3 "unit_credits" (JVal.str u.meta.credits)
      let fs5 := objSet fs4 "unit_sws" (JVal.str u.meta.sws)
      let fs6 := objSet fs5 "unit_workload" (JVal.str u.meta.workload)
      let fs7 := objSet fs6 "verantwortliche" (JVal.str u.meta.verantwortliche)
      let fs8 := objSet fs7 "unit_content" (JVal.str (u.doc.take 2000))
      Except.ok (JVal.obj fs8)
    | _ => Except.error "TypeError: comparison result does not support item assignment"

/-- The dict returned by `compare_multiple`: the `results` list and the
optional top-level `error` key (timing is not modelled). -/
structure CompareManyOutcome where
  results : List JVal
  error : Option String

/-- The first exception to surface from the joined tasks (the model's
determinization of `as_completed` + `f.result()`): `none` iff every task
succeeded. -/
def firstTaskError (attempts : List (Except String JVal)) : Option String :=
  attempts.findSome? (fun a => match a with
    | Except.error e => some e
    | Except.ok _ => none)

/-- The successful verdicts of the joined tasks, in submission order. -/
def okResults (attempts : List (Except String JVal)) : List JVal :=
  attempts.filterMap (fun a => match a with
    | Except.ok v => some v
    | Except.error _ => none)

/-- `compare_multiple` (assistant.py lines 304–438).  The whole fan-out /
join is inside one `try`: as soon as one task's exception surfaces from
`f.result()`, the `except` at line 436 returns an empty `results` list
plus a top-level `error` string — sibling verdicts are discarded.  The
thread-pool completion order is scheduler-dependent; this model fixes
submission order, which changes at most the order of `results` and which
failing task's message is reported, and no property proved here depends
on either. -/
def compare_multiple (llm : String → GenContentConfig → Except String JVal)
    (store : Store) (external_module : ExternalModule)
    (unit_ids : List String) : CompareManyOutcome :=
  if (resolveUnits store unit_ids).isEmpty then
    { results := [], error := none }
  else
    match firstTaskError
        ((resolveUnits store unit_ids).map (compare_single_unit llm external_module)) with
    | some e => { results := [], error := some e }
    | none =>
      { results := okResults
          ((resolveUnits store unit_ids).map (compare_single_unit llm external_module))
        error := none }

/-! ## Concrete fixtures used by witnesses and counterexamples -/

/-- An embedding provider that always succeeds. -/
def embedOk : List String → Except String Unit := fun _ => Except.ok ()

/-- An embedding provider that always raises. -/
def embedFail : List String → Except String Unit := fun _ => Except.error "embedding failed"

/-- A minimal catalog unit. -/
def demoUnit (t : String) : UnitRec :=
  { title := t, module_id := "M1", semester := none, sws := none, workload := none
    lehrsprache := none, learning_outcomes_text := "", content := ""
    verantwortliche := [] }

/-- The store entry the sync engine would build for `demoUnit uid` with no
modules in the snapshot. -/
def demoEntry (uid : String) : StoreEntry := mkStoreEntry [] (uid, demoUnit uid)

/-- A minimal parsed external module. -/
def demoModule : ExternalModule :=
  { title := none, credits := none, workload := none, level := none
    assessment := none, institution := none, learning_goals := [], raw_text := none }

/-- A three-entry collection. -/
def demoStore3 : Store := [demoEntry "U1", demoEntry "U2", demoEntry "U3"]

/-- The `units_data` element `compare_multiple` builds for `demoEntry uid`. -/
def demoUnitData (uid : String) : UnitData :=
  { unit_id := uid, doc := (demoEntry uid).doc, meta := (demoEntry uid).meta }

/-! ## Rounding lemmas -/

theorem roundHalfEven_ge_floor (q : ℚ) : ⌊q⌋ ≤ roundHalfEven q := by
  unfold roundHalfEven
  split_ifs <;> omega

theorem roundHalfEven_le_floor_add_one (q : ℚ) : roundHalfEven q ≤ ⌊q⌋ + 1 := by
  unfold roundHalfEven
  split_ifs <;> omega

theorem roundHalfEven_mono {x y : ℚ} (h : x ≤ y) : roundHalfEven x ≤ roundHalfEven y := by
  have hf : ⌊x⌋ ≤ ⌊y⌋ := Int.floor_mono h
  rcases lt_or_eq_of_le hf with hlt | heq
  · calc roundHalfEven x ≤ ⌊x⌋ + 1 := roundHalfEven_le_floor_add_one x
      _ ≤ ⌊y⌋ := by omega
      _ ≤ roundHalfEven y := roundHalfEven_ge_floor y
  · have hr : x - (⌊x⌋ : ℚ) ≤ y - (⌊y⌋ : ℚ) := by
      rw [heq]
      linarith
    unfold roundHalfEven
    rw [heq]
    rw [heq] at hr
    split_ifs <;> first | omega | linarith

theorem pyRound3_mono {x y : ℚ} (h : x ≤ y) : pyRound3 x ≤ pyRound3 y := by
  unfold pyRound3
  have h1 : roundHalfEven (x * 1000) ≤ roundHalfEven (y * 1000) :=
    roundHalfEven_mono (by linarith)
  have h2 : ((roundHalfEven (x * 1000) : ℤ) : ℚ) ≤ ((roundHalfEven (y * 1000) : ℤ) : ℚ) :=
    Int.cast_le.2 h1
  linarith

theorem roundHalfEven_intCast (n : ℤ) : roundHalfEven (n : ℚ) = n := by
  unfold roundHalfEven
  rw [Int.floor_intCast, sub_self, if_pos (by norm_num : (0 : ℚ) < 1 / 2)]

theorem pyRound3_one : pyRound3 1 = 1 := by
  unfold pyRound3
  have h : (1 : ℚ) * 1000 = ((1000 : ℤ) : ℚ) := by norm_num
  rw [h, roundHalfEven_intCast]
  norm_num

theorem pyRound3_neg_one : pyRound3 (-1) = -1 := by
  unfold pyRound3
  have h : (-1 : ℚ) * 1000 = ((-1000 : ℤ) : ℚ) := by norm_num
  rw [h, roundHalfEven_intCast]
  norm_num

theorem pyRound3_bounds {x : ℚ} (h1 : -1 ≤ x) (h2 : x ≤ 1) :
    -1 ≤ pyRound3 x ∧ pyRound3 x ≤ 1 := by
  constructor
  · have := pyRound3_mono h1
    rwa [pyRound3_neg_one] at this
  · have := pyRound3_mono h2
    rwa [pyRound3_one] at this

/-! ## Sync engine lemmas -/

theorem mem_newIdsOf {data : FetchResult} {i : String} :
    i ∈ newIdsOf data ↔ i ∈ data.units.map (·.1) := by
  simp [newIdsOf, List.mem_dedup]

theorem mem_existingIdsOf {store : Store} {i : String} :
    i ∈ existingIdsOf store ↔ i ∈ store.map (·.id) := by
  simp [existingIdsOf, List.mem_dedup]

theorem mem_toAddOf {data : FetchResult} {store : Store} {i : String} :
    i ∈ toAddOf data store ↔ i ∈ data.units.map (·.1) ∧ i ∉ store.map (·.id) := by
  simp [toAddOf, List.mem_filter, mem_newIdsOf, mem_existingIdsOf]

theorem mem_toDeleteOf {data : FetchResult} {store : Store} {i : String} :
    i ∈ toDeleteOf data store ↔ i ∈ store.map (·.id) ∧ i ∉ data.units.map (·.1) := by
  simp [toDeleteOf, List.mem_filter, mem_newIdsOf, mem_existingIdsOf]

theorem toAddOf_isEmpty_iff {data : FetchResult} {store : Store} :
    (toAddOf data store).isEmpty = true
      ↔ ∀ i ∈ data.units.map (·.1), i ∈ store.map (·.id) := by
  simp [toAddOf, List.isEmpty_iff, List.filter_eq_nil_iff, mem_newIdsOf, mem_existingIdsOf]

theorem toDeleteOf_isEmpty_iff {data : FetchResult} {store : Store} :
    (toDeleteOf data store).isEmpty = true
      ↔ ∀ i ∈ store.map (·.id), i ∈ data.units.map (·.1) := by
  simp [toDeleteOf, List.isEmpty_iff, List.filter_eq_nil_iff, mem_newIdsOf, mem_existingIdsOf]

theorem store1Of_sublist (data : FetchResult) (store : Store) :
    List.Sublist (store1Of data store) store := by
  unfold store1Of
  split_ifs
  · exact List.Sublist.refl _
  · exact List.filter_sublist _

theorem mem_store1Of_ids {data : FetchResult} {store : Store} {i : String} :
    i ∈ (store1Of data store).map (·.id)
      ↔ i ∈ store.map (·.id) ∧ i ∈ data.units.map (·.1) := by
  unfold store1Of
  split_ifs with h
  · constructor
    · intro hi
      exact ⟨hi, toDeleteOf_isEmpty_iff.1 h i hi⟩
    · exact And.left
  · constructor
    · intro hi
      simp only [List.mem_map] at hi
      obtain ⟨e, he, rfl⟩ := hi
      rw [List.mem_filter] at he
      obtain ⟨he, hd⟩ := he
      simp only [decide_eq_true_eq] at hd
      have hmem : e.id ∈ store.map (·.id) := List.mem_map_of_mem _ he
      refine ⟨hmem, ?_⟩
      by_contra hnew
      exact hd (mem_toDeleteOf.2 ⟨hmem, hnew⟩)
    · rintro ⟨hi, hnew⟩
      simp only [List.mem_map] at hi ⊢
      obtain ⟨e, he, rfl⟩ := hi
      refine ⟨e, ?_, rfl⟩
      rw [List.mem_filter]
      refine ⟨he, ?_⟩
      simp only [decide_eq_true_eq]
      intro hd
      exact (mem_toDeleteOf.1 hd).2 hnew

theorem store2Of_false (data : FetchResult) (store : Store) :
    store2Of data store false = store1Of data store := by
  unfold store2Of
  simp

theorem store2Of_true (data : FetchResult) (store : Store) :
    store2Of data store true = [] := by
  unfold store2Of
  by_cases hE : (store.map (·.id)).isEmpty = true
  · have hs : store = [] := List.map_eq_nil_iff.1 (List.isEmpty_iff.1 hE)
    subst hs
    simp [store1Of, toDeleteOf, existingIdsOf]
  · have hE' : (store.map (·.id)).isEmpty = false := by
      cases h2 : (store.map (·.id)).isEmpty
      · rfl
      · exact absurd h2 hE
    have hcond : (true && !(store.map (·.id)).isEmpty) = true := by
      rw [hE']
      rfl
    rw [if_pos hcond, List.filter_eq_nil_iff]
    intro e he
    have hmem : e ∈ store := (store1Of_sublist data store).subset he
    simp only [decide_eq_true_eq, not_not]
    exact List.mem_map_of_mem _ hmem

theorem unitsToProcessOf_false (data : FetchResult) (store : Store) :
    unitsToProcessOf data store false
      = data.units.filter (fun u => decide (u.1 ∈ toAddOf data store)) := by
  unfold unitsToProcessOf
  simp

theorem unitsToProcessOf_true (data : FetchResult) (store : Store) :
    unitsToProcessOf data store true = data.units := rfl

theorem unitsToProcessOf_sublist (data : FetchResult) (store : Store) (force : Bool) :
    List.Sublist (unitsToProcessOf data store force) data.units := by
  unfold unitsToProcessOf
  split_ifs
  · exact List.Sublist.refl _
  · exact List.filter_sublist _

theorem entriesOf_ids (data : FetchResult) (store : Store) (force : Bool) :
    (entriesOf data store force).map (·.id)
      = (unitsToProcessOf data store force).map (·.1) := by
  unfold entriesOf
  rw [List.map_map]
  rfl

theorem mem_unitsToProcessOf_false_ids {data : FetchResult} {store : Store} {i : String} :
    i ∈ (unitsToProcessOf data store false).map (·.1)
      ↔ i ∈ data.units.map (·.1) ∧ i ∉ store.map (·.id) := by
  rw [unitsToProcessOf_false]
  constructor
  · intro hi
    simp only [List.mem_map] at hi
    obtain ⟨u, hu, rfl⟩ := hi
    rw [List.mem_filter] at hu
    obtain ⟨hu, ha⟩ := hu
    simp only [decide_eq_true_eq] at ha
    exact mem_toAddOf.1 ha
  · rintro ⟨hnew, hex⟩
    simp only [List.mem_map] at hnew ⊢
    obtain ⟨u, hu, rfl⟩ := hnew
    refine ⟨u, ?_, rfl⟩
    rw [List.mem_filter]
    refine ⟨hu, ?_⟩
    simp only [decide_eq_true_eq]
    exact mem_toAddOf.2 ⟨List.mem_map_of_mem _ hu, hex⟩

/-- Characterization of a completed (`Except.ok`) sync on a non-empty
snapshot: the resulting id set equals the snapshot key set, and under the
no-duplicate invariants the returned count is the store size. -/
theorem sync_ok_spec (embed : List String → Except String Unit)
    (data : FetchResult) (store : Store) (force : Bool) (n : Nat)
    (hne : data.units ≠ [])
    (hok : (sync_from_database embed data store force).result = Except.ok n) :
    (∀ i, i ∈ (sync_from_database embed data store force).store.map (·.id)
        ↔ i ∈ data.units.map (·.1))
    ∧ ((store.map (·.id)).Nodup → (data.units.map (·.1)).Nodup →
        ((sync_from_database embed data store force).store.map (·.id)).Nodup
          ∧ n = (sync_from_database embed data store force).store.length) := by
  have h0 : ¬(data.units.isEmpty = true) := by
    simp [List.isEmpty_iff, hne]
  unfold sync_from_database at hok ⊢
  rw [if_neg h0] at hok ⊢
  by_cases hfast :
      ((toAddOf data store).isEmpty && (toDeleteOf data store).isEmpty && !force) = true
  · rw [if_pos hfast] at hok ⊢
    simp only [Bool.and_eq_true] at hfast
    obtain ⟨⟨hA, hD⟩, _⟩ := hfast
    simp only [Except.ok.injEq] at hok
    constructor
    · intro i
      constructor
      · intro hi
        exact toDeleteOf_isEmpty_iff.1 hD i hi
      · intro hi
        exact toAddOf_isEmpty_iff.1 hA i hi
    · intro hS _
      refine ⟨hS, ?_⟩
      rw [← hok]
      unfold existingIdsOf
      rw [List.dedup_eq_self.2 hS, List.length_map]
  · rw [if_neg hfast] at hok ⊢
    by_cases hutp : (unitsToProcessOf data store force).isEmpty = true
    · rw [if_pos hutp] at hok ⊢
      cases force with
      | true =>
        exfalso
        rw [unitsToProcessOf_true, List.isEmpty_iff] at hutp
        exact hne hutp
      | false =>
        rw [store2Of_false] at hok ⊢
        simp only [Except.ok.injEq] at hok
        constructor
        · intro i
          rw [mem_store1Of_ids]
          constructor
          · exact And.right
          · intro hi
            refine ⟨?_, hi⟩
            rw [List.isEmpty_iff] at hutp
            by_contra hex
            have hmem : i ∈ (unitsToProcessOf data store false).map (·.1) :=
              mem_unitsToProcessOf_false_ids.2 ⟨hi, hex⟩
            rw [hutp] at hmem
            exact absurd hmem (List.not_mem_nil i)
        · intro hS _
          have hnd : ((store1Of data store).map (·.id)).Nodup :=
            hS.sublist ((store1Of_sublist data store).map _)
          exact ⟨hnd, hok.symm⟩
    · rw [if_neg hutp] at hok ⊢
      cases hemb : embed ((entriesOf data store force).map (·.doc)) with
      | error e =>
        rw [hemb] at hok
        exact absurd hok (by simp)
      | ok u =>
        rw [hemb] at hok
        simp only [Except.ok.injEq] at hok
        have hids : ∀ i,
            i ∈ (store2Of data store force ++ entriesOf data store force).map (·.id)
              ↔ i ∈ data.units.map (·.1) := by
          intro i
          rw [List.map_append, List.mem_append, entriesOf_ids]
          cases force with
          | true =>
            rw [store2Of_true, unitsToProcessOf_true]
            simp
          | false =>
            rw [store2Of_false, mem_store1Of_ids, mem_unitsToProcessOf_false_ids]
            constructor
            · rintro (⟨_, hn⟩ | ⟨hn, _⟩) <;> exact hn
            · intro hn
              by_cases hex : i ∈ store.map (·.id)
              · exact Or.inl ⟨hex, hn⟩
              · exact Or.inr ⟨hn, hex⟩
        constructor
        · exact hids
        · intro hS hU
          have hnd : ((store2Of data store force
              ++ entriesOf data store force).map (·.id)).Nodup := by
            rw [List.map_append, List.nodup_append]
            refine ⟨?_, ?_, ?_⟩
            · cases force with
              | true =>
                rw [store2Of_true]
                simp
              | false =>
                rw [store2Of_false]
                exact hS.sublist ((store1Of_sublist data store).map _)
            · rw [entriesOf_ids]
              exact hU.sublist ((unitsToProcessOf_sublist data store force).map _)
            · intro a ha hb
              rw [entriesOf_ids] at hb
              cases force with
              | true =>
                rw [store2Of_true] at ha
                simp at ha
              | false =>
                rw [store2Of_false] at ha
                exact (mem_unitsToProcessOf_false_ids.1 hb).2 (mem_store1Of_ids.1 ha).1
          exact ⟨hnd, hok.symm⟩

/-- Empty-snapshot early return of `sync_from_database` (chromadb.py
lines 101–103): report 0 and touch nothing. -/
theorem sync_from_database_empty (embed : List String → Except String Unit)
    (data : FetchResult) (store : Store) (force : Bool) (h : data.units = []) :
    sync_from_database embed data store force
      = { store := store, ops := [], result := Except.ok 0 } := by
  unfold sync_from_database
  rw [if_pos (by simp [h] : data.units.isEmpty = true)]

/-- A one-unit snapshot with no modules. -/
def demoSnapshot1 : FetchResult := { units := [("U1", demoUnit "U1")], modules := [] }

/-- The empty snapshot. -/
def emptySnapshot : FetchResult := { units := [], modules := [] }

/-- C4: for every reconcile call, with either value of `forceFull`, on a
snapshot with no units, the call returns 0 and leaves the existing index
unchanged, issuing no deletes and no upserts — even in forced mode. -/
theorem C4_empty_snapshot_noop (embed : List String → Except String Unit)
    (data : FetchResult) (store : Store) (force : Bool) (h : data.units = []) :
    sync_from_database embed data store force
      = { store := store, ops := [], result := Except.ok 0 } :=
  sync_from_database_empty embed data store force h

/-- C4 witness: a forced reconcile on the empty snapshot over a one-entry
index returns 0 and leaves the entry and the op log untouched. -/
theorem C4_empty_snapshot_noop_witness :
    sync_from_database embedOk emptySnapshot [demoEntry "U1"] true
      = { store := [demoEntry "U1"], ops := [], result := Except.ok 0 } :=
  C4_empty_snapshot_noop embedOk emptySnapshot [demoEntry "U1"] true rfl

/-- C3 counterexample: with an EMPTY snapshot and a non-empty index,
`reconcile(forceFull=true)` completes (returns 0) yet the index id set
does not equal the snapshot unit id set — the orphan `U1` survives. -/
theorem C3_counterexample :
    (sync_from_database embedOk emptySnapshot [demoEntry "U1"] true).result = Except.ok 0
    ∧ ¬(∀ i, i ∈ (sync_from_database embedOk emptySnapshot
            [demoEntry "U1"] true).store.map (·.id)
          ↔ i ∈ emptySnapshot.units.map (·.1)) := by
  constructor
  · rfl
  · intro h
    have h1 : "U1" ∈ (sync_from_database embedOk emptySnapshot
        [demoEntry "U1"] true).store.map (·.id) := by
      show "U1" ∈ (["U1"] : List String)
      simp
    have h2 := (h "U1").1 h1
    simp [emptySnapshot] at h2

/-- C3 (amended): after a COMPLETED reconcile call — either force mode —
on a NON-EMPTY snapshot, the index id set exactly equals the snapshot unit
id set; on an empty snapshot the call is a no-op and an existing index
survives (see the counterexample). -/
theorem C3_sync_converges_on_nonempty_snapshot
    (embed : List String → Except String Unit)
    (data : FetchResult) (store : Store) (force : Bool) (n : Nat)
    (hne : data.units ≠ [])
    (hok : (sync_from_database embed data store force).result = Except.ok n) :
    ∀ i, i ∈ (sync_from_database embed data store force).store.map (·.id)
      ↔ i ∈ data.units.map (·.1) :=
  (sync_ok_spec embed data store force n hne hok).1

/-- C3 witness: a forced rebuild from the empty index onto the one-unit
snapshot makes the id sets coincide, instantiated at the id `U1`. -/
theorem C3_sync_converges_witness :
    "U1" ∈ (sync_from_database embedOk demoSnapshot1 [] true).store.map (·.id)
      ↔ "U1" ∈ demoSnapshot1.units.map (·.1) :=
  C3_sync_converges_on_nonempty_snapshot embedOk demoSnapshot1 [] true 1
    (by simp [demoSnapshot1]) rfl "U1"

/-- C5: after a completed `reconcile(false)`, running `reconcile(false)`
again on the unchanged snapshot takes the fast path: it issues zero store
writes, leaves the collection untouched and returns the same count.  (The
second call's embedding provider is arbitrary — it is never invoked.) -/
theorem C5_reconcile_idempotent
    (embed embed2 : List String → Except String Unit)
    (data : FetchResult) (store : Store) (n : Nat)
    (hS : (store.map (·.id)).Nodup)
    (hU : (data.units.map (·.1)).Nodup)
    (hok : (sync_from_database embed data store false).result = Except.ok n) :
    sync_from_database embed2 data (sync_from_database embed data store false).store false
      = { store := (sync_from_database embed data store false).store
          ops := [], result := Except.ok n } := by
  by_cases hunits : data.units = []
  · have e1 := sync_from_database_empty embed data store false hunits
    rw [e1] at hok ⊢
    simp only [Except.ok.injEq] at hok
    rw [sync_from_database_empty embed2 data store false hunits, ← hok]
  · obtain ⟨hids, hcount⟩ := sync_ok_spec embed data store false n hunits hok
    obtain ⟨hnd, hlen⟩ := hcount hS hU
    set s1 := (sync_from_database embed data store false).store with hs1
    unfold sync_from_database
    have h0 : ¬(data.units.isEmpty = true) := by
      simp [List.isEmpty_iff, hunits]
    rw [if_neg h0]
    have hA : (toAddOf data s1).isEmpty = true :=
      toAddOf_isEmpty_iff.2 (fun i hi => (hids i).2 hi)
    have hD : (toDeleteOf data s1).isEmpty = true :=
      toDeleteOf_isEmpty_iff.2 (fun i hi => (hids i).1 hi)
    have hfast : ((toAddOf data s1).isEmpty && (toDeleteOf data s1).isEmpty
        && !false) = true := by
      rw [hA, hD]
      rfl
    rw [if_pos hfast]
    have hex : (existingIdsOf s1).length = n := by
      unfold existingIdsOf
      rw [List.dedup_eq_self.2 hnd, List.length_map]
      exact hlen.symm
    rw [hex]

/-- C5 witness: loading one unit into an empty index returns 1; the
repeated call leaves the store as-is, issues no ops and returns 1 again. -/
theorem C5_reconcile_idempotent_witness :
    sync_from_database embedFail demoSnapshot1
        (sync_from_database embedOk demoSnapshot1 [] false).store false
      = { store := (sync_from_database embedOk demoSnapshot1 [] false).store
          ops := [], result := Except.ok 1 } :=
  C5_reconcile_idempotent embedOk embedFail demoSnapshot1 [] 1
    (by simp) (by simp [demoSnapshot1]) rfl

theorem ops2Of_false (data : FetchResult) (store : Store) :
    ops2Of data store false = ops1Of data store := by
  unfold ops2Of
  simp

theorem mkStoreEntry_id (modules : List (String × ModuleRec)) (p : String × UnitRec) :
    (mkStoreEntry modules p).id = p.1 := rfl

theorem nodup_all_eq_singleton {α : Type} {l : List α} {r : α}
    (hnd : l.Nodup) (hall : ∀ x ∈ l, x = r) (hr : r ∈ l) : l = [r] := by
  cases l with
  | nil => cases hr
  | cons a t =>
    have ha : a = r := hall a (by simp)
    subst ha
    cases t with
    | nil => rfl
    | cons b t2 =>
      have hb : b = a := hall b (by simp)
      rw [List.nodup_cons] at hnd
      exact absurd (by simp [hb] : a ∈ b :: t2) hnd.1

/-- Snapshot `B` obtained from snapshot `A` by removing the unit keyed
`removed` and appending a unit keyed `added`. -/
def snapshotSwap (A : FetchResult) (removed added : String) (uNew : UnitRec)
    (newModules : List (String × ModuleRec)) : FetchResult :=
  { units := A.units.filter (fun u => decide (u.1 ≠ removed)) ++ [(added, uNew)]
    modules := newModules }

/-- C6: after `reconcile(false)` against snapshot A, a `reconcile(false)`
against B = A with one unit removed and one added issues exactly one
delete of the removed id and one add of the added id, removes exactly the
removed id, adds exactly the added id, and leaves membership of every
other id unchanged. -/
theorem C6_incremental_single_swap
    (embed embed2 : List String → Except String Unit)
    (A : FetchResult) (store0 : Store) (removed added : String)
    (uNew : UnitRec) (newModules : List (String × ModuleRec)) (n m : Nat)
    (hS : (store0.map (·.id)).Nodup)
    (hU : (A.units.map (·.1)).Nodup)
    (hrem : removed ∈ A.units.map (·.1))
    (hadd : added ∉ A.units.map (·.1))
    (hok1 : (sync_from_database embed A store0 false).result = Except.ok n)
    (hok2 : (sync_from_database embed2 (snapshotSwap A removed added uNew newModules)
        (sync_from_database embed A store0 false).store false).result = Except.ok m) :
    (sync_from_database embed2 (snapshotSwap A removed added uNew newModules)
        (sync_from_database embed A store0 false).store false).ops
      = [StoreOp.delete [removed], StoreOp.add [added]]
    ∧ removed ∉ (sync_from_database embed2 (snapshotSwap A removed added uNew newModules)
        (sync_from_database embed A store0 false).store false).store.map (·.id)
    ∧ added ∈ (sync_from_database embed2 (snapshotSwap A removed added uNew newModules)
        (sync_from_database embed A store0 false).store false).store.map (·.id)
    ∧ ∀ i, i ≠ removed → i ≠ added →
        (i ∈ (sync_from_database embed2 (snapshotSwap A removed added uNew newModules)
            (sync_from_database embed A store0 false).store false).store.map (·.id)
          ↔ i ∈ (sync_from_database embed A store0 false).store.map (·.id)) := by
  have hneA : A.units ≠ [] := by
    intro h
    rw [h] at hrem
    simp at hrem
  obtain ⟨hids1, hcnt1⟩ := sync_ok_spec embed A store0 false n hneA hok1
  obtain ⟨hnd1, _⟩ := hcnt1 hS hU
  set B := snapshotSwap A removed added uNew newModules with hB
  set s1 := (sync_from_database embed A store0 false).store with hs1
  have hra : removed ≠ added := by
    intro h
    exact hadd (h ▸ hrem)
  have hBkeys : ∀ i, i ∈ B.units.map (·.1)
      ↔ (i ∈ A.units.map (·.1) ∧ i ≠ removed) ∨ i = added := by
    intro i
    simp only [hB, snapshotSwap, List.map_append, List.mem_append]
    constructor
    · rintro (h | h)
      · left
        simp only [List.mem_map] at h
        obtain ⟨u, hu, rfl⟩ := h
        rw [List.mem_filter] at hu
        obtain ⟨hu, hne⟩ := hu
        simp only [decide_eq_true_eq] at hne
        exact ⟨List.mem_map_of_mem _ hu, hne⟩
      · right
        simpa using h
    · rintro (⟨hA', hne⟩ | rfl)
      · left
        simp only [List.mem_map] at hA' ⊢
        obtain ⟨u, hu, rfl⟩ := hA'
        refine ⟨u, ?_, rfl⟩
        rw [List.mem_filter]
        exact ⟨hu, by simpa using hne⟩
      · right
        simp
  have htd : toDeleteOf B s1 = [removed] := by
    have hnd_td : (toDeleteOf B s1).Nodup := by
      unfold toDeleteOf existingIdsOf
      exact List.Nodup.filter _ (List.nodup_dedup _)
    apply nodup_all_eq_singleton hnd_td
    · intro x hx
      rw [mem_toDeleteOf] at hx
      obtain ⟨hx1, hx2⟩ := hx
      have hxA : x ∈ A.units.map (·.1) := (hids1 x).1 hx1
      by_contra hxr
      exact hx2 ((hBkeys x).2 (Or.inl ⟨hxA, hxr⟩))
    · rw [mem_toDeleteOf]
      refine ⟨(hids1 removed).2 hrem, ?_⟩
      intro hmem
      rcases (hBkeys removed).1 hmem with ⟨_, hh⟩ | hh
      · exact hh rfl
      · exact hra hh
  have hBnodup : (B.units.map (·.1)).Nodup := by
    simp only [hB, snapshotSwap, List.map_append]
    rw [List.nodup_append]
    refine ⟨hU.sublist ((List.filter_sublist _).map _), by simp, ?_⟩
    intro a ha hb
    have hb' : a = added := by
      simpa using hb
    subst hb'
    simp only [List.mem_map] at ha
    obtain ⟨u, hu, rfl⟩ := ha
    exact hadd (List.mem_map_of_mem _ (List.mem_filter.1 hu).1)
  have hta : toAddOf B s1 = [added] := by
    unfold toAddOf
    have hnew : newIdsOf B = B.units.map (·.1) := by
      unfold newIdsOf
      exact List.dedup_eq_self.2 hBnodup
    rw [hnew]
    simp only [hB, snapshotSwap, List.map_append, List.filter_append]
    have h1 : ((A.units.filter (fun u => decide (u.1 ≠ removed))).map (·.1)).filter
        (fun i => decide (i ∉ existingIdsOf s1)) = [] := by
      rw [List.filter_eq_nil_iff]
      intro a ha
      simp only [decide_eq_true_eq, not_not]
      have haA : a ∈ A.units.map (·.1) := by
        simp only [List.mem_map] at ha ⊢
        obtain ⟨u, hu, rfl⟩ := ha
        exact ⟨u, (List.mem_filter.1 hu).1, rfl⟩
      exact mem_existingIdsOf.2 ((hids1 a).2 haA)
    have haddex : added ∉ existingIdsOf s1 := by
      rw [mem_existingIdsOf]
      intro hmem
      exact hadd ((hids1 added).1 hmem)
    rw [h1]
    simp [haddex]
  have hutp : unitsToProcessOf B s1 false = [(added, uNew)] := by
    rw [unitsToProcessOf_false, hta]
    simp only [hB, snapshotSwap, List.filter_append]
    have h1 : (A.units.filter (fun u => decide (u.1 ≠ removed))).filter
        (fun u => decide (u.1 ∈ [added])) = [] := by
      rw [List.filter_eq_nil_iff]
      intro u hu
      simp only [decide_eq_true_eq, List.mem_singleton]
      intro heq
      have hmem : u.1 ∈ A.units.map (·.1) :=
        List.mem_map_of_mem _ (List.mem_filter.1 hu).1
      rw [heq] at hmem
      exact hadd hmem
    rw [h1]
    simp
  have h0B : ¬(B.units.isEmpty = true) := by
    simp only [hB, snapshotSwap]
    simp
  have hfastB : ¬(((toAddOf B s1).isEmpty && (toDeleteOf B s1).isEmpty && !false) = true) := by
    rw [hta]
    simp
  have hutpB : ¬((unitsToProcessOf B s1 false).isEmpty = true) := by
    rw [hutp]
    simp
  unfold sync_from_database at hok2 ⊢
  rw [if_neg h0B, if_neg hfastB, if_neg hutpB] at hok2 ⊢
  cases hemb : embed2 ((entriesOf B s1 false).map (·.doc)) with
  | error e =>
    rw [hemb] at hok2
    exact absurd hok2 (by simp)
  | ok u =>
    have hops2 : ops2Of B s1 false = [StoreOp.delete [removed]] := by
      rw [ops2Of_false]
      unfold ops1Of
      rw [htd]
      rw [if_neg (by simp : ¬(([removed] : List String).isEmpty = true))]
    have hentries : entriesOf B s1 false = [mkStoreEntry B.modules (added, uNew)] := by
      unfold entriesOf
      rw [hutp]
      rfl
    refine ⟨?_, ?_, ?_, ?_⟩
    · show ops2Of B s1 false ++ [StoreOp.add ((entriesOf B s1 false).map (·.id))]
        = [StoreOp.delete [removed], StoreOp.add [added]]
      rw [hops2, hentries]
      rfl
    · show removed ∉ (store2Of B s1 false ++ entriesOf B s1 false).map (·.id)
      rw [List.map_append, List.mem_append]
      rintro (h | h)
      · rw [store2Of_false] at h
        rcases mem_store1Of_ids.1 h with ⟨_, hBk⟩
        rcases (hBkeys removed).1 hBk with ⟨_, hh⟩ | hh
        · exact hh rfl
        · exact hra hh
      · rw [hentries] at h
        simp [mkStoreEntry_id] at h
        exact hra h
    · show added ∈ (store2Of B s1 false ++ entriesOf B s1 false).map (·.id)
      rw [List.map_append, List.mem_append]
      right
      rw [hentries]
      simp [mkStoreEntry_id]
    · intro i hirem hiadd
      show i ∈ (store2Of B s1 false ++ entriesOf B s1 false).map (·.id)
        ↔ i ∈ s1.map (·.id)
      rw [List.map_append, List.mem_append, store2Of_false]
      constructor
      · rintro (h | h)
        · exact (mem_store1Of_ids.1 h).1
        · rw [hentries] at h
          simp [mkStoreEntry_id] at h
          exact absurd h hiadd
      · intro h1
        left
        apply mem_store1Of_ids.2
        refine ⟨h1, ?_⟩
        apply (hBkeys i).2
        left
        exact ⟨(hids1 i).1 h1, hirem⟩

/-- A two-unit snapshot. -/
def demoSnapshotA : FetchResult :=
  { units := [("U1", demoUnit "U1"), ("U2", demoUnit "U2")], modules := [] }

/-- C6 witness: syncing the two-unit snapshot into an empty index, then
swapping `U1` for `U3`, issues exactly one delete of `U1` and one add of
`U3` and leaves `U2` alone. -/
theorem C6_incremental_single_swap_witness :
    (sync_from_database embedOk (snapshotSwap demoSnapshotA "U1" "U3" (demoUnit "U3") [])
        (sync_from_database embedOk demoSnapshotA [] false).store false).ops
      = [StoreOp.delete ["U1"], StoreOp.add ["U3"]]
    ∧ "U1" ∉ (sync_from_database embedOk
        (snapshotSwap demoSnapshotA "U1" "U3" (demoUnit "U3") [])
        (sync_from_database embedOk demoSnapshotA [] false).store false).store.map (·.id)
    ∧ "U3" ∈ (sync_from_database embedOk
        (snapshotSwap demoSnapshotA "U1" "U3" (demoUnit "U3") [])
        (sync_from_database embedOk demoSnapshotA [] false).store false).store.map (·.id)
    ∧ ∀ i, i ≠ "U1" → i ≠ "U3" →
        (i ∈ (sync_from_database embedOk
            (snapshotSwap demoSnapshotA "U1" "U3" (demoUnit "U3") [])
            (sync_from_database embedOk demoSnapshotA [] false).store false).store.map (·.id)
          ↔ i ∈ (sync_from_database embedOk demoSnapshotA [] false).store.map (·.id)) :=
  C6_incremental_single_swap embedOk embedOk demoSnapshotA [] "U1" "U3" (demoUnit "U3") [] 2 2
    (by simp) (by simp [demoSnapshotA]) (by simp [demoSnapshotA])
    (by simp [demoSnapshotA]) rfl rfl

/-- C7: `ensure_synced` triggers `reconcile(forceFull=false)` exactly when
no checksum has been observed yet or the current checksum differs from the
last observed one, returning `true` then and `false` otherwise; the stored
checksum is updated to the current one only when the sync completes, and
is left unchanged when the sync raises. -/
theorem C7_checksum_gate (embed : List String → Except String Unit)
    (updated_times : List Int) (data : FetchResult) (st : SyncSession) :
    ((st.lastChecksum = none ∨ get_units_checksum updated_times ≠ st.lastChecksum) →
      (ensure_synced embed updated_times data st).ops
          = (sync_from_database embed data st.store false).ops
        ∧ (∀ k, (sync_from_database embed data st.store false).result = Except.ok k →
            (ensure_synced embed updated_times data st).session.lastChecksum
                = get_units_checksum updated_times
              ∧ (ensure_synced embed updated_times data st).result = Except.ok true)
        ∧ (∀ e, (sync_from_database embed data st.store false).result = Except.error e →
            (ensure_synced embed updated_times data st).session.lastChecksum
                = st.lastChecksum
              ∧ (ensure_synced embed updated_times data st).result = Except.error e))
    ∧ (¬(st.lastChecksum = none ∨ get_units_checksum updated_times ≠ st.lastChecksum) →
        ensure_synced embed updated_times data st
          = { session := st, ops := [], result := Except.ok false }) := by
  constructor
  · intro hcond
    unfold ensure_synced
    rw [if_pos hcond]
    cases hres : (sync_from_database embed data st.store false).result with
    | ok k =>
      exact ⟨rfl, fun k' _ => ⟨rfl, rfl⟩, fun e he => absurd he (by simp)⟩
    | error e0 =>
      refine ⟨rfl, fun k hk => absurd hk (by simp), fun e he => ?_⟩
      simp only [Except.error.injEq] at he
      subst he
      exact ⟨rfl, rfl⟩
  · intro hcond
    unfold ensure_synced
    rw [if_neg hcond]

/-- Checksum-gate session fixture: a previously observed checksum 5. -/
def demoSession : SyncSession := { lastChecksum := some 5, store := [] }

/-- C7 witness: with observed checksum 5 and current checksum 7 the gate
triggers; the embedding call raises, so the exception propagates and the
stored checksum stays 5. -/
theorem C7_checksum_gate_witness :
    (ensure_synced embedFail [7] demoSnapshot1 demoSession).session.lastChecksum
        = demoSession.lastChecksum
    ∧ (ensure_synced embedFail [7] demoSnapshot1 demoSession).result
        = Except.error "embedding failed" :=
  ((C7_checksum_gate embedFail [7] demoSnapshot1 demoSession).1
    (Or.inr (by decide))).2.2 "embedding failed" rfl

/-! ## Retrieval lemmas -/

theorem fmu_length (reply : QueryReply) :
    (find_matching_units reply).length
      = min reply.documents.length (min reply.metadatas.length reply.distances.length) := by
  simp [find_matching_units]

theorem fmu_getElem (reply : QueryReply) (i : Nat)
    (hi : i < (find_matching_units reply).length) :
    ∃ hd : i < reply.distances.length,
      ((find_matching_units reply).get ⟨i, hi⟩).similarity
          = pyRound3 (1 - reply.distances.get ⟨i, hd⟩)
      ∧ ((find_matching_units reply).get ⟨i, hi⟩).rank = i + 1 := by
  have hd : i < reply.distances.length := by
    have h := hi
    rw [fmu_length, lt_min_iff, lt_min_iff] at h
    exact h.2.2
  refine ⟨hd, ?_, ?_⟩
  · simp [find_matching_units, List.get_eq_getElem, List.getElem_map, List.getElem_enum,
      List.getElem_zip]
  · simp [find_matching_units, List.get_eq_getElem, List.getElem_map, List.getElem_enum,
      List.getElem_zip]

/-- C8: every returned match carries `similarity = round(1 − distance, 3)`
and a 1-based rank equal to its position; when the store returns distances
ascending within [0, 2], all similarities lie in [−1, 1] and the matches
are sorted descending (non-increasing) by similarity. -/
theorem C8_similarity_and_ranking (reply : QueryReply)
    (hsorted : reply.distances.Sorted (· ≤ ·))
    (hbound : ∀ d ∈ reply.distances, 0 ≤ d ∧ d ≤ 2) :
    (∀ i (hi : i < (find_matching_units reply).length),
        ((find_matching_units reply).get ⟨i, hi⟩).rank = i + 1)
    ∧ (∀ i (hi : i < (find_matching_units reply).length),
        ∃ hd : i < reply.distances.length,
          ((find_matching_units reply).get ⟨i, hi⟩).similarity
            = pyRound3 (1 - reply.distances.get ⟨i, hd⟩))
    ∧ (∀ mr ∈ find_matching_units reply, -1 ≤ mr.similarity ∧ mr.similarity ≤ 1)
    ∧ (∀ i j (hi : i < (find_matching_units reply).length)
          (hj : j < (find_matching_units reply).length), i ≤ j →
        ((find_matching_units reply).get ⟨j, hj⟩).similarity
          ≤ ((find_matching_units reply).get ⟨i, hi⟩).similarity) := by
  refine ⟨?_, ?_, ?_, ?_⟩
  · intro i hi
    obtain ⟨hd, _, hrank⟩ := fmu_getElem reply i hi
    exact hrank
  · intro i hi
    obtain ⟨hd, hsim, _⟩ := fmu_getElem reply i hi
    exact ⟨hd, hsim⟩
  · intro mr hmr
    obtain ⟨⟨i, hi⟩, rfl⟩ := List.mem_iff_get.1 hmr
    obtain ⟨hd, hsim, _⟩ := fmu_getElem reply i hi
    rw [hsim]
    have hmem : reply.distances.get ⟨i, hd⟩ ∈ reply.distances := List.get_mem _ _ _
    obtain ⟨h0, h2⟩ := hbound _ hmem
    exact pyRound3_bounds (by linarith) (by linarith)
  · intro i j hi hj hij
    obtain ⟨hdi, hsimi, _⟩ := fmu_getElem reply i hi
    obtain ⟨hdj, hsimj, _⟩ := fmu_getElem reply j hj
    rw [hsimi, hsimj]
    apply pyRound3_mono
    have hle : reply.distances.get ⟨i, hdi⟩ ≤ reply.distances.get ⟨j, hdj⟩ :=
      hsorted.rel_get_of_le (Fin.mk_le_mk.2 hij)
    linarith

/-- A two-row store query reply with ascending distances 0 and 1. -/
def demoReply : QueryReply :=
  { documents := ["d1", "d2"]
    metadatas := [(demoEntry "U1").meta, (demoEntry "U2").meta]
    distances := [0, 1] }

/-- C8 witness at the two-row reply with distances 0 and 1. -/
theorem C8_similarity_and_ranking_witness :
    (∀ i (hi : i < (find_matching_units demoReply).length),
        ((find_matching_units demoReply).get ⟨i, hi⟩).rank = i + 1)
    ∧ (∀ i (hi : i < (find_matching_units demoReply).length),
        ∃ hd : i < demoReply.distances.length,
          ((find_matching_units demoReply).get ⟨i, hi⟩).similarity
            = pyRound3 (1 - demoReply.distances.get ⟨i, hd⟩))
    ∧ (∀ mr ∈ find_matching_units demoReply, -1 ≤ mr.similarity ∧ mr.similarity ≤ 1)
    ∧ (∀ i j (hi : i < (find_matching_units demoReply).length)
          (hj : j < (find_matching_units demoReply).length), i ≤ j →
        ((find_matching_units demoReply).get ⟨j, hj⟩).similarity
          ≤ ((find_matching_units demoReply).get ⟨i, hi⟩).similarity) :=
  C8_similarity_and_ranking demoReply
    (by norm_num [demoReply, List.sorted_cons])
    (by
      intro d hd
      simp only [demoReply] at hd
      rcases List.mem_cons.1 hd with rfl | hd
      · norm_num
      · rcases List.mem_cons.1 hd with rfl | hd
        · norm_num
        · simp at hd)

/-! ## Comparison fixtures -/

/-- A provider oracle that always returns the empty JSON object. -/
def llmEmptyObj : String → GenContentConfig → Except String JVal :=
  fun _ _ => Except.ok (JVal.obj [])

/-- A provider oracle forced to raise exactly on the batch prompt for
candidate `U2` of the three-entry store, succeeding elsewhere.  (It keys
on the prompt's first 110 characters, which contain the `unit_id` line of
the schema example block and therefore distinguish the candidates.) -/
def llmFailOnU2 : String → GenContentConfig → Except String JVal :=
  fun p _ =>
    if p.data.take 110
        = (compareSingleUnitPrompt demoModule (demoUnitData "U2")).data.take 110
    then Except.error "forced provider failure"
    else Except.ok (JVal.obj [])

/-- C9 counterexample: when none of the requested ids resolve,
`compare_multiple` returns the empty result list WITHOUT any top-level
error marker — the claim's "explicit error marker" is absent. -/
theorem C9_counterexample :
    (compare_multiple llmEmptyObj [] demoModule ["U9"]).results = []
    ∧ (compare_multiple llmEmptyObj [] demoModule ["U9"]).error = none :=
  ⟨rfl, rfl⟩

/-- C9 (amended): an id absent from the index yields the explicit
not-found error dict (and no verdict) from `compare_modules` and is
silently omitted from `compare_multiple`'s resolved candidates; when no
requested id resolves, `compare_multiple` returns an empty result list
with NO top-level error marker and without raising — the error marker
only appears when a comparison task raises. -/
theorem C9_notfound_surfacing (llm : String → GenContentConfig → Except String JVal)
    (store : Store) (m : ExternalModule) :
    (∀ uid, uid ∉ store.map (·.id) →
      compare_modules llm store m uid
        = CompareOneResult.notFound ("Unit " ++ uid ++ " not found"))
    ∧ (∀ unit_ids uid, uid ∉ store.map (·.id) →
        uid ∉ (resolveUnits store unit_ids).map (·.unit_id))
    ∧ (∀ unit_ids, resolveUnits store unit_ids = [] →
        compare_multiple llm store m unit_ids
          = { results := [], error := none }) := by
  refine ⟨?_, ?_, ?_⟩
  · intro uid hno
    unfold compare_modules
    have hfil : store.filter (fun e => e.id == uid) = [] := by
      rw [List.filter_eq_nil_iff]
      intro e he hbe
      rw [beq_iff_eq] at hbe
      exact hno (hbe ▸ List.mem_map_of_mem _ he)
    rw [hfil]
  · intro unit_ids uid hno hmem
    unfold resolveUnits at hmem
    simp only [List.mem_map] at hmem
    obtain ⟨u, hu, huid⟩ := hmem
    rw [List.mem_filterMap] at hu
    obtain ⟨x, _, hres⟩ := hu
    cases hfil : store.filter (fun e => e.id == x) with
    | nil =>
      rw [hfil] at hres
      exact absurd hres (by simp)
    | cons e t =>
      rw [hfil] at hres
      simp only [Option.some.injEq] at hres
      subst hres
      have he : e ∈ store.filter (fun e => e.id == x) := by
        rw [hfil]
        simp
      have hee := List.mem_filter.1 he
      have hex : e.id = x := by
        simpa using hee.2
      have hx_store : x ∈ store.map (·.id) := hex ▸ List.mem_map_of_mem _ hee.1
      exact hno (huid ▸ hx_store)
  · intro unit_ids hres
    unfold compare_multiple
    rw [hres]
    rfl

/-- C9 witness: `U9` is absent from a one-entry store; `compare_modules`
returns the not-found error dict, `resolveUnits` omits it, and
`compare_multiple` on only-unresolvable ids returns the marker-free empty
outcome. -/
theorem C9_notfound_surfacing_witness :
    compare_modules llmEmptyObj [demoEntry "U1"] demoModule "U9"
        = CompareOneResult.notFound "Unit U9 not found"
    ∧ "U9" ∉ (resolveUnits [demoEntry "U1"] ["U9", "U1"]).map (·.unit_id)
    ∧ compare_multiple llmEmptyObj [demoEntry "U1"] demoModule ["U9"]
        = { results := [], error := none } := by
  have h := C9_notfound_surfacing llmEmptyObj [demoEntry "U1"] demoModule
  exact ⟨h.1 "U9" (by decide), h.2.1 ["U9", "U1"] "U9" (by decide), h.2.2 ["U9"] rfl⟩

set_option maxRecDepth 8000 in
/-- C1 counterexample: three resolvable candidates, the generative call
for `U2` forced to throw — `compare_multiple` returns ZERO successful
verdicts (not two) plus only the top-level error string; the siblings'
results are discarded. -/
theorem C1_counterexample :
    (compare_multiple llmFailOnU2 demoStore3 demoModule ["U1", "U2", "U3"]).results = []
    ∧ (compare_multiple llmFailOnU2 demoStore3 demoModule ["U1", "U2", "U3"]).error
        = some "forced provider failure" :=
  ⟨rfl, rfl⟩

/-- C1 (amended): when the generative call (or its JSON parse) for ANY
resolved candidate raises, `compare_multiple` never raises, but it
discards all sibling verdicts: it returns an empty results list together
with a top-level error string. -/
theorem C1_task_failure_empties_batch
    (llm : String → GenContentConfig → Except String JVal)
    (store : Store) (m : ExternalModule) (unit_ids : List String)
    (h : ∃ u ∈ resolveUnits store unit_ids,
      ∃ e, compare_single_unit llm m u = Except.error e) :
    (compare_multiple llm store m unit_ids).results = []
    ∧ (compare_multiple llm store m unit_ids).error ≠ none := by
  obtain ⟨u, hu, e, he⟩ := h
  have hne : ¬((resolveUnits store unit_ids).isEmpty = true) := by
    simp only [List.isEmpty_iff]
    exact List.ne_nil_of_mem hu
  unfold compare_multiple
  rw [if_neg hne]
  cases hfs : firstTaskError
      ((resolveUnits store unit_ids).map (compare_single_unit llm m)) with
  | some e' => exact ⟨rfl, by simp⟩
  | none =>
    exfalso
    unfold firstTaskError at hfs
    rw [List.findSome?_eq_none_iff] at hfs
    have hmem : compare_single_unit llm m u
        ∈ (resolveUnits store unit_ids).map (compare_single_unit llm m) :=
      List.mem_map_of_mem _ hu
    have hx := hfs _ hmem
    rw [he] at hx
    exact absurd hx (by simp)

set_option maxRecDepth 8000 in
/-- C1 witness: the amended behaviour at the forced three-candidate
instance — empty results and a non-`none` error field. -/
theorem C1_task_failure_empties_batch_witness :
    (compare_multiple llmFailOnU2 demoStore3 demoModule ["U1", "U2", "U3"]).results = []
    ∧ (compare_multiple llmFailOnU2 demoStore3 demoModule ["U1", "U2", "U3"]).error ≠ none :=
  C1_task_failure_empties_batch llmFailOnU2 demoStore3 demoModule ["U1", "U2", "U3"]
    ⟨demoUnitData "U2", by decide, "forced provider failure", rfl⟩

set_option maxRecDepth 8000 in
/-- C2 counterexample: for an identical external module and identical
candidate content, the prompt sent by `compare_modules` differs from the
prompt sent by `compare_single_unit`, and so do their criteria blocks. -/
theorem C2_counterexample :
    compareModulesPrompt demoModule (demoEntry "U1")
        ≠ compareSingleUnitPrompt demoModule (demoUnitData "U1")
    ∧ compareModulesKriterien ≠ compareSingleUnitKriterien := by
  exact ⟨by decide, by decide⟩

set_option maxRecDepth 8000 in
/-- C2 (amended): the two comparison paths share the response schema, the
temperature-0 generation config, and the trailing criteria lines (credit
compatibility: external ≥ internal or within ~10%; relevance; deficiency
cap), but their learning-goal thresholds differ: `compare_modules` asks
"≥80% → vollständig, ≥50% → teilweise" while the `compare_multiple`
per-candidate path asks "≥85% UND alle Kernlernziele → vollständig" plus a
75–84% borderline rule — so the criteria texts are NOT the same and the
individual and batched verdicts may diverge. -/
theorem C2_criteria_texts_differ :
    compareModulesConfig = compareSingleUnitConfig
    ∧ compareModulesKriterien
        = "Kriterien:\n- Lernziele: ≥80% → vollständig, ≥50% → teilweise, <50% → keine\n"
          ++ sharedKriterienTail
    ∧ compareSingleUnitKriterien
        = "Kriterien:\n- Lernziele: ≥85% UND alle Kernlernziele → vollständig, ≥50% → teilweise, <50% → keine\n- GRENZFÄLLE (75-84%): Wenn Zweifel oder Kernlernziele fehlen → IMMER \"teilweise\"\n"
          ++ sharedKriterienTail
    ∧ compareModulesKriterien ≠ compareSingleUnitKriterien :=
  ⟨rfl, rfl, rfl, by decide⟩

/-! ## Schema-conformance lemmas -/

theorem fieldConform_key_mem {kv : String × JVal} {props : List (String × GSchema)}
    (h : fieldConform kv props = true) : kv.1 ∈ props.map (·.1) := by
  induction props with
  | nil =>
    unfold fieldConform at h
    exact absurd h (by simp)
  | cons p rest ih =>
    obtain ⟨k, s⟩ := p
    unfold fieldConform at h
    by_cases hk : (kv.1 == k) = true
    · have hkk : kv.1 = k := by simpa using hk
      simp [hkk]
    · rw [if_neg hk] at h
      have hmem := ih h
      simp only [List.map_cons, List.mem_cons]
      right
      exact hmem

/-- A schema-conformant object carries only keys declared in the schema
properties. -/
theorem conformsTo_obj_keys {fs : List (String × JVal)}
    {props : List (String × GSchema)} {required : List String}
    (h : conformsTo (JVal.obj fs) (GSchema.object props required) = true) :
    ∀ kv ∈ fs, kv.1 ∈ props.map (·.1) := by
  intro kv hkv
  unfold conformsTo at h
  rw [Bool.and_eq_true] at h
  have h2 := h.2
  rw [List.all_eq_true] at h2
  exact fieldConform_key_mem (h2 kv hkv)

/-- C10: whenever the provider response of `compare_modules` is a JSON
object that conforms to `SINGLE_COMPARISON_SCHEMA` (whose nine properties
do not include a `begründung` field), the returned `reasoning` value is
the empty string: the code reads `parsed.get("begründung", "")`, a key a
schema-constrained response never contains. -/
theorem C10_reasoning_always_empty
    (llm : String → GenContentConfig → Except String JVal)
    (store : Store) (m : ExternalModule) (uid : String)
    (rec reas : JVal) (lgm : Option JVal) (a b c : String)
    (hconf : ∀ p cfg v, llm p cfg = Except.ok v →
      conformsTo v SINGLE_COMPARISON_SCHEMA = true)
    (hok : compare_modules llm store m uid
      = CompareOneResult.ok rec reas lgm a b c) :
    reas = JVal.str "" := by
  unfold compare_modules at hok
  split at hok
  · exact absurd hok (by simp)
  · rename_i e t heqfil
    split at hok
    · exact absurd hok (by simp)
    · rename_i parsed hllm
      cases parsed with
      | obj fs =>
        have hc := hconf _ _ _ hllm
        unfold SINGLE_COMPARISON_SCHEMA at hc
        have hkeys := conformsTo_obj_keys hc
        have hnone : jsonGet fs "begründung" = none := by
          unfold jsonGet
          cases hfind : fs.find? (fun kv => kv.1 == "begründung") with
          | none => simp
          | some kv =>
            exfalso
            have hkv_mem : kv ∈ fs := List.mem_of_find?_eq_some hfind
            have hkv_eq := List.find?_some hfind
            have hin := hkeys kv hkv_mem
            have hbk : kv.1 = "begründung" := by simpa using hkv_eq
            rw [hbk] at hin
            simp at hin
        simp only [CompareOneResult.ok.injEq] at hok
        obtain ⟨_, hreas, _⟩ := hok
        rw [← hreas]
        unfold jsonGetD
        rw [hnone]
        rfl
      | null => exact absurd hok (by simp)
      | bool b2 => exact absurd hok (by simp)
      | num q => exact absurd hok (by simp)
      | str s => exact absurd hok (by simp)
      | arr xs => exact absurd hok (by simp)

/-- A full nine-field verdict object as the schema-constrained provider
would produce it. -/
def sampleVerdictFields : List (String × JVal) :=
  [("lernziele_match", JVal.num 80),
   ("empfehlung", JVal.str "teilweise"),
   ("lernziele", JVal.arr []),
   ("credits", JVal.obj [("bewertung", JVal.str "OK")]),
   ("niveau", JVal.str "vergleichbar"),
   ("pruefung", JVal.str "vergleichbar"),
   ("workload", JVal.str "vergleichbar"),
   ("defizite", JVal.arr []),
   ("fazit", JVal.str "Teilweise anrechenbar.")]

theorem sampleVerdict_conforms :
    conformsTo (JVal.obj sampleVerdictFields) SINGLE_COMPARISON_SCHEMA = true := by
  simp [conformsTo, fieldConform, sampleVerdictFields, SINGLE_COMPARISON_SCHEMA,
    lernzieleSchema, creditsSchema, defiziteSchema]

/-- A provider oracle that always returns the conformant sample verdict. -/
def llmConforming : String → GenContentConfig → Except String JVal :=
  fun _ _ => Except.ok (JVal.obj sampleVerdictFields)

/-- C10 witness: with a schema-conformant provider response the returned
reasoning, obtained by applying the claim theorem at a concrete store,
module and unit id, is the empty string. -/
theorem C10_reasoning_always_empty_witness :
    JVal.str "" = JVal.str "" :=
  C10_reasoning_always_empty llmConforming [demoEntry "U1"] demoModule "U1"
    (JVal.str "teilweise") (JVal.str "") (some (JVal.num 80)) "U1" "U1" ""
    (fun p cfg v hv => by
      simp only [llmConforming, Except.ok.injEq] at hv
      rw [← hv]
      exact sampleVerdict_conforms)
    rfl
